import Mathlib

/-!
Shallow embedding of the Telegram Channel API service (src/main.py).

The service is a thin HTTP proxy over a messaging-platform client
(telethon): it lists channel-type dialogs, retrieves message histories
with pagination parameters, maps platform entities into a public JSON
schema, and translates upstream exceptions into HTTP error classes
(404 / 429 / 500).  The platform client itself is external to the
repository; where its behaviour decides a property, the corresponding
definition is modelled from the specification and says so in its doc
comment.  Everything else is translated directly from src/main.py.
-/

namespace Telegrampa

/-- Platform media kinds: the Python class of a telethon media object
attached to a message (`message.media`). -/
inductive MediaKind where
  | photo
  | document
  | webPage
deriving DecidableEq

/-- Modelled from the spec: the Python class name of each media kind,
as interpolated by `type(message.media).__name__` in src/main.py line 133.
The media classes live in the external platform library, not in src/;
the spec scenario names a photo attachment's kind "Photo". -/
def MediaKind.pyName : MediaKind → String
  | .photo => "Photo"
  | .document => "Document"
  | .webPage => "WebPage"

/-- A platform entity (telethon's `User`, `Channel`, `Chat`), carrying the
fields src/main.py reads.  `participants_count` is optional: the code
guards the read with `hasattr`. -/
inductive Entity where
  | user (id : Int) (username : Option String)
  | channel (id : Int) (title : String) (username : Option String)
      (participants_count : Option Int)
  | chat (id : Int) (title : String)
deriving DecidableEq

/-- An upstream message as yielded by the platform iteration, with the
fields src/main.py reads.  `message` is the native text (`None` and the
empty string are both falsy in `message.message or ""`). -/
structure TLMessage where
  id : Int
  date : Nat
  message : Option String
  media : Option MediaKind
  sender : Option Entity
  views : Option Int
  forwards : Option Int
deriving DecidableEq

/-- Public response schema `MessageModel` (src/main.py lines 29-36). -/
structure MessageModel where
  id : Int
  date : Nat
  text : String
  sender_id : Option Int
  sender_username : Option String
  views : Option Int
  forwards : Option Int
deriving DecidableEq

/-- Public response schema `ChannelModel` (src/main.py lines 38-42). -/
structure ChannelModel where
  id : Int
  title : String
  username : Option String
  participants_count : Option Int
deriving DecidableEq

/-- A dialog entry from `client.iter_dialogs()`; the code reads only its
`entity` attribute. -/
structure Dialog where
  entity : Entity
deriving DecidableEq

/-- The Python exceptions the handlers in src/main.py distinguish:
`ValueError` (raised by entity resolution when the target does not exist),
`FloodWaitError` (carrying `e.seconds`), and any other `Exception`. -/
inductive PyExc where
  | valueError (msg : String)
  | floodWait (seconds : Nat) (msg : String)
  | other (msg : String)
deriving DecidableEq

/-- Python `str(e)` on the modelled exceptions. -/
def PyExc.str : PyExc → String
  | .valueError m => m
  | .floodWait _ m => m
  | .other m => m

/-- An HTTP endpoint outcome: a successful JSON body or an
`HTTPException` with a status code and a detail string. -/
inductive HttpResult (α : Type) where
  | ok (body : α)
  | error (status : Nat) (detail : String)
deriving DecidableEq

/-- Sender extraction (src/main.py lines 119-128): a user-type or
channel-type sender contributes its id and optional username; any other
sender, or no sender at all, leaves both fields `None`. -/
def senderInfo : Option Entity → Option Int × Option String
  | some (.user i u) => (some i, u)
  | some (.channel i _ u _) => (some i, u)
  | _ => (none, none)

/-- Text extraction (src/main.py lines 130-133): `text = message.message
or ""`; if the message carries media and the text is empty, substitute
the placeholder naming the media class. -/
def messageText (m : TLMessage) : String :=
  let text := m.message.getD ""
  match m.media with
  | some k => if text = "" then "[Media: " ++ k.pyName ++ "]" else text
  | none => text

/-- Per-message mapping into the public schema (src/main.py
lines 119-144), applied to each yielded message in loop order. -/
def mapMessage (m : TLMessage) : MessageModel :=
  { id := m.id
    date := m.date
    text := messageText m
    sender_id := (senderInfo m.sender).1
    sender_username := (senderInfo m.sender).2
    views := m.views
    forwards := m.forwards }

/-- Dialog mapping in `list_channels` (src/main.py lines 74-82): a
channel entity is mapped to `ChannelModel`; any other entity is skipped. -/
def mapDialog : Entity → Option ChannelModel
  | .channel i t u p =>
      some { id := i, title := t, username := u, participants_count := p }
  | _ => none

/-- Endpoint `GET /channels` (src/main.py lines 66-85).  The upstream
iteration yields `dialogs` and then either completes or raises `exc`
partway; channel-type dialogs are accumulated and returned, and any
exception is converted to a 500 with the exception text. -/
def list_channels (dialogs : List Dialog) (exc : Option PyExc) :
    HttpResult (List ChannelModel) :=
  match exc with
  | some e => .error 500 ("Error listing channels: " ++ e.str)
  | none => .ok (dialogs.filterMap (fun d => mapDialog d.entity))

/-- Query parameters of the message endpoints (src/main.py lines 88-93):
`limit` defaults to 50 (`Query(default=50, ge=1, le=1000)`); the three
pagination parameters default to `None`. -/
structure MessageQuery where
  limit : Int := 50
  offset_id : Option Int := none
  min_id : Option Int := none
  max_id : Option Int := none
deriving DecidableEq

/-- Keyword arguments passed to the upstream iteration (src/main.py
lines 109-115): `limit` always, and each pagination key exactly when its
query parameter is not `None`.  A key absent from the list is omitted
from the call, never passed as null. -/
def buildIterKwargs (limit : Int) (offset_id min_id max_id : Option Int) :
    List (String × Int) :=
  [("limit", limit)]
    ++ (match offset_id with | some v => [("offset_id", v)] | none => [])
    ++ (match min_id with | some v => [("min_id", v)] | none => [])
    ++ (match max_id with | some v => [("max_id", v)] | none => [])

/-- Exception translation at the message endpoints' boundary
(src/main.py lines 147-152 and 214-219): `ValueError` → 404,
`FloodWaitError` → 429 carrying the wait seconds, anything else → 500. -/
def handleMessagesError : PyExc → HttpResult (List MessageModel)
  | .valueError msg => .error 404 ("Channel not found: " ++ msg)
  | .floodWait n _ =>
      .error 429 ("Rate limited. Wait " ++ toString n ++ " seconds")
  | .other msg => .error 500 ("Error retrieving messages: " ++ msg)

/-- Upstream operations an endpoint performs, recorded for reasoning
about when the upstream is consulted. -/
inductive UpstreamCall where
  | resolveEntity
  | iterMessages (kwargs : List (String × Int))
deriving DecidableEq

/-- Endpoint `GET /channels/{channel_id}/messages` (src/main.py
lines 87-152).  `resolveById` is `client.get_entity(channel_id)`;
`iter` is the upstream message iteration, yielding a list of messages
and then either completing or raising an exception partway (the
messages mapped before the exception are discarded when the handler
converts the exception).  Out-of-range `limit` values are rejected with
a 422 validation error before the handler body runs (modelled from the
spec: the enforcement of the declared `ge=1, le=1000` bounds is
framework code outside src/).  Returns the HTTP outcome together with
the trace of upstream calls performed. -/
def get_messages (channel_id : Int)
    (resolveById : Int → Except PyExc Entity)
    (iter : Entity → List (String × Int) → List TLMessage × Option PyExc)
    (q : MessageQuery) :
    HttpResult (List MessageModel) × List UpstreamCall :=
  if ¬ (1 ≤ q.limit ∧ q.limit ≤ 1000) then
    (.error 422 "Input should be within the range 1..1000", [])
  else
    match resolveById channel_id with
    | .error e => (handleMessagesError e, [.resolveEntity])
    | .ok entity =>
        let kwargs := buildIterKwargs q.limit q.offset_id q.min_id q.max_id
        match iter entity kwargs with
        | (_, some e) =>
            (handleMessagesError e, [.resolveEntity, .iterMessages kwargs])
        | (yielded, none) =>
            (.ok (yielded.map mapMessage),
              [.resolveEntity, .iterMessages kwargs])

/-- Endpoint `GET /channels/by-username/{username}/messages`
(src/main.py lines 154-219).  Identical to `get_messages` except that
the target is resolved from the textual handle
(`client.get_entity(username)`). -/
def get_messages_by_username (username : String)
    (resolveByUsername : String → Except PyExc Entity)
    (iter : Entity → List (String × Int) → List TLMessage × Option PyExc)
    (q : MessageQuery) :
    HttpResult (List MessageModel) × List UpstreamCall :=
  if ¬ (1 ≤ q.limit ∧ q.limit ≤ 1000) then
    (.error 422 "Input should be within the range 1..1000", [])
  else
    match resolveByUsername username with
    | .error e => (handleMessagesError e, [.resolveEntity])
    | .ok entity =>
        let kwargs := buildIterKwargs q.limit q.offset_id q.min_id q.max_id
        match iter entity kwargs with
        | (_, some e) =>
            (handleMessagesError e, [.resolveEntity, .iterMessages kwargs])
        | (yielded, none) =>
            (.ok (yielded.map mapMessage),
              [.resolveEntity, .iterMessages kwargs])

/-- Modelled from the spec: the platform's message iteration
(telethon's `iter_messages`, external to src/) yields the channel's
message stream in upstream order, capped at the `limit` keyword
argument. -/
def upstreamIter (stream : List TLMessage) (_e : Entity)
    (kwargs : List (String × Int)) : List TLMessage × Option PyExc :=
  match kwargs.lookup "limit" with
  | some n => (stream.take n.toNat, none)
  | none => (stream, none)

/-- Channel-type test on entities, mirroring `isinstance(entity, Channel)`. -/
def Entity.isChannelType : Entity → Bool
  | .channel .. => true
  | _ => false

/-- The public projection of an entity into the Channel schema; only the
channel case is ever reached by the listing endpoint. -/
def channelOf : Entity → ChannelModel
  | .channel i t u p =>
      { id := i, title := t, username := u, participants_count := p }
  | .user i u =>
      { id := i, title := "", username := u, participants_count := none }
  | .chat i t =>
      { id := i, title := t, username := none, participants_count := none }

/-! ### Concrete fixtures used in scenarios, witnesses and counterexamples -/

/-- Example channel entity from the spec scenario. -/
def egChannelEntity : Entity := .channel 100 "News" (some "newsch") (some 5000)

/-- Example numeric-id resolution that always succeeds with the channel. -/
def egResolveId : Int → Except PyExc Entity := fun _ => .ok egChannelEntity

/-- Example handle resolution that always succeeds with the channel. -/
def egResolveName : String → Except PyExc Entity := fun _ => .ok egChannelEntity

/-- Example plain-text message with identifier `n`. -/
def egMsg (n : Int) : TLMessage :=
  { id := n, date := 0, message := some ("msg" ++ toString n), media := none,
    sender := none, views := none, forwards := none }

/-- Example 5-message upstream stream in upstream (reverse-chronological)
order. -/
def egStream : List TLMessage := [egMsg 5, egMsg 4, egMsg 3, egMsg 2, egMsg 1]

/-- A message with empty native text and no media. -/
def egEmptyMsg : TLMessage :=
  { id := 7, date := 0, message := some "", media := none, sender := none,
    views := none, forwards := none }

/-- A message with no native text and a photo attachment. -/
def egPhotoMsg : TLMessage :=
  { id := 8, date := 0, message := none, media := some .photo, sender := none,
    views := none, forwards := none }

/-! ### Evaluation lemmas for the endpoint bodies -/

theorem buildIterKwargs_lookup_limit (l : Int) (o mi ma : Option Int) :
    (buildIterKwargs l o mi ma).lookup "limit" = some l := rfl

theorem upstreamIter_eval (stream : List TLMessage) (e : Entity)
    (l : Int) (o mi ma : Option Int) :
    upstreamIter stream e (buildIterKwargs l o mi ma) =
      (stream.take l.toNat, none) := by
  simp [upstreamIter, buildIterKwargs_lookup_limit]

theorem get_messages_ok_eval (cid : Int)
    (resolveById : Int → Except PyExc Entity)
    (iter : Entity → List (String × Int) → List TLMessage × Option PyExc)
    (q : MessageQuery) (ent : Entity) (yielded : List TLMessage)
    (hres : resolveById cid = .ok ent)
    (hlim : 1 ≤ q.limit ∧ q.limit ≤ 1000)
    (hiter : iter ent (buildIterKwargs q.limit q.offset_id q.min_id q.max_id) =
      (yielded, none)) :
    get_messages cid resolveById iter q =
      (.ok (yielded.map mapMessage),
        [.resolveEntity,
          .iterMessages (buildIterKwargs q.limit q.offset_id q.min_id q.max_id)]) := by
  simp only [get_messages, if_neg (not_not_intro hlim), hres, hiter]

theorem get_messages_resolve_err_eval (cid : Int)
    (resolveById : Int → Except PyExc Entity)
    (iter : Entity → List (String × Int) → List TLMessage × Option PyExc)
    (q : MessageQuery) (e : PyExc)
    (hres : resolveById cid = .error e)
    (hlim : 1 ≤ q.limit ∧ q.limit ≤ 1000) :
    get_messages cid resolveById iter q =
      (handleMessagesError e, [.resolveEntity]) := by
  simp only [get_messages, if_neg (not_not_intro hlim), hres]

theorem get_messages_iter_err_eval (cid : Int)
    (resolveById : Int → Except PyExc Entity)
    (iter : Entity → List (String × Int) → List TLMessage × Option PyExc)
    (q : MessageQuery) (ent : Entity) (yielded : List TLMessage) (e : PyExc)
    (hres : resolveById cid = .ok ent)
    (hlim : 1 ≤ q.limit ∧ q.limit ≤ 1000)
    (hiter : iter ent (buildIterKwargs q.limit q.offset_id q.min_id q.max_id) =
      (yielded, some e)) :
    get_messages cid resolveById iter q =
      (handleMessagesError e,
        [.resolveEntity,
          .iterMessages (buildIterKwargs q.limit q.offset_id q.min_id q.max_id)]) := by
  simp only [get_messages, if_neg (not_not_intro hlim), hres, hiter]

theorem get_messages_by_username_ok_eval (uname : String)
    (resolveByUsername : String → Except PyExc Entity)
    (iter : Entity → List (String × Int) → List TLMessage × Option PyExc)
    (q : MessageQuery) (ent : Entity) (yielded : List TLMessage)
    (hres : resolveByUsername uname = .ok ent)
    (hlim : 1 ≤ q.limit ∧ q.limit ≤ 1000)
    (hiter : iter ent (buildIterKwargs q.limit q.offset_id q.min_id q.max_id) =
      (yielded, none)) :
    get_messages_by_username uname resolveByUsername iter q =
      (.ok (yielded.map mapMessage),
        [.resolveEntity,
          .iterMessages (buildIterKwargs q.limit q.offset_id q.min_id q.max_id)]) := by
  simp only [get_messages_by_username, if_neg (not_not_intro hlim), hres, hiter]

theorem get_messages_by_username_resolve_err_eval (uname : String)
    (resolveByUsername : String → Except PyExc Entity)
    (iter : Entity → List (String × Int) → List TLMessage × Option PyExc)
    (q : MessageQuery) (e : PyExc)
    (hres : resolveByUsername uname = .error e)
    (hlim : 1 ≤ q.limit ∧ q.limit ≤ 1000) :
    get_messages_by_username uname resolveByUsername iter q =
      (handleMessagesError e, [.resolveEntity]) := by
  simp only [get_messages_by_username, if_neg (not_not_intro hlim), hres]

theorem get_messages_by_username_iter_err_eval (uname : String)
    (resolveByUsername : String → Except PyExc Entity)
    (iter : Entity → List (String × Int) → List TLMessage × Option PyExc)
    (q : MessageQuery) (ent : Entity) (yielded : List TLMessage) (e : PyExc)
    (hres : resolveByUsername uname = .ok ent)
    (hlim : 1 ≤ q.limit ∧ q.limit ≤ 1000)
    (hiter : iter ent (buildIterKwargs q.limit q.offset_id q.min_id q.max_id) =
      (yielded, some e)) :
    get_messages_by_username uname resolveByUsername iter q =
      (handleMessagesError e,
        [.resolveEntity,
          .iterMessages (buildIterKwargs q.limit q.offset_id q.min_id q.max_id)]) := by
  simp only [get_messages_by_username, if_neg (not_not_intro hlim), hres, hiter]

/-! ### Structural lemmas about the mapping layer -/

theorem mapMessage_text_ne_empty (m : TLMessage)
    (h : m.message.getD "" ≠ "" ∨ m.media.isSome = true) :
    (mapMessage m).text ≠ "" := by
  show messageText m ≠ ""
  unfold messageText
  cases hm : m.media with
  | none =>
    simp only
    rcases h with h | h
    · exact h
    · rw [hm] at h
      simp at h
  | some k =>
    simp only
    by_cases ht : m.message.getD "" = ""
    · rw [if_pos ht]
      cases k <;> decide
    · rw [if_neg ht]
      exact ht

theorem filterMap_mapDialog (dialogs : List Dialog) :
    dialogs.filterMap (fun d => mapDialog d.entity) =
      (dialogs.filter (fun d => d.entity.isChannelType)).map
        (fun d => channelOf d.entity) := by
  induction dialogs with
  | nil => rfl
  | cons d rest ih =>
    cases h : d.entity <;>
      simpa [List.filterMap_cons, List.filter_cons, mapDialog,
        Entity.isChannelType, channelOf, h] using ih

/-! ### Claims -/

/-- Claim C3: the channel-listing endpoint returns exactly the channel-type
dialogs the upstream iteration yields, each mapped to the public Channel
schema in iteration order; dialogs whose entity is a basic chat or a user are
skipped without error; and one upstream channel dialog with id 100, title
"News", username "newsch" and 5000 participants yields exactly the expected
singleton list. -/
theorem C3_listing_filters_channels (dialogs : List Dialog) :
    list_channels dialogs none =
      .ok ((dialogs.filter (fun d => d.entity.isChannelType)).map
        (fun d => channelOf d.entity)) ∧
    list_channels [⟨egChannelEntity⟩] none =
      .ok [{ id := 100, title := "News", username := some "newsch",
             participants_count := some 5000 }] := by
  constructor
  · simp only [list_channels, filterMap_mapDialog]
  · rfl

/-- Claim C9: the two message-endpoint variants differ only in how the target
is resolved: whenever the numeric-id resolution and the handle resolution
agree, both variants produce identical responses — the same message lists on
success and the same error classes and bodies on failure — for every
iteration behaviour and every query. -/
theorem C9_variants_agree (cid : Int) (uname : String)
    (resolveById : Int → Except PyExc Entity)
    (resolveByUsername : String → Except PyExc Entity)
    (iter : Entity → List (String × Int) → List TLMessage × Option PyExc)
    (q : MessageQuery)
    (h : resolveById cid = resolveByUsername uname) :
    get_messages cid resolveById iter q =
      get_messages_by_username uname resolveByUsername iter q := by
  simp only [get_messages, get_messages_by_username, h]

theorem C9_variants_agree_witness :
    get_messages 100 egResolveId (upstreamIter egStream) {} =
      get_messages_by_username "newsch" egResolveName (upstreamIter egStream) {} :=
  C9_variants_agree 100 "newsch" egResolveId egResolveName
    (upstreamIter egStream) {} rfl

/-- Claim C7: an upstream message with no native text carrying a photo media
attachment is mapped with `text` equal to the placeholder naming the media
kind, "[Media: Photo]". -/
theorem C7_photo_placeholder (m : TLMessage)
    (h1 : m.message.getD "" = "") (h2 : m.media = some MediaKind.photo) :
    (mapMessage m).text = "[Media: Photo]" := by
  show messageText m = "[Media: Photo]"
  unfold messageText
  simp only [h2]
  rw [if_pos h1]
  decide

theorem C7_photo_placeholder_witness :
    egPhotoMsg.message.getD "" = "" ∧
    egPhotoMsg.media = some MediaKind.photo ∧
    (mapMessage egPhotoMsg).text = "[Media: Photo]" :=
  ⟨rfl, rfl, C7_photo_placeholder egPhotoMsg rfl rfl⟩

/-- Claim C8: for every mapped message, a user-type or channel-type sender
contributes its identifier and optional username to `sender_id` and
`sender_username`, while any other sender — a basic-chat sender or no sender
at all — leaves both fields null. -/
theorem C8_sender_resolution (m : TLMessage) :
    (∀ i u, m.sender = some (.user i u) →
      (mapMessage m).sender_id = some i ∧ (mapMessage m).sender_username = u) ∧
    (∀ i t u p, m.sender = some (.channel i t u p) →
      (mapMessage m).sender_id = some i ∧ (mapMessage m).sender_username = u) ∧
    (∀ i t, m.sender = some (.chat i t) →
      (mapMessage m).sender_id = none ∧ (mapMessage m).sender_username = none) ∧
    (m.sender = none →
      (mapMessage m).sender_id = none ∧ (mapMessage m).sender_username = none) := by
  refine ⟨fun i u h => ?_, fun i t u p h => ?_, fun i t h => ?_, fun h => ?_⟩ <;>
    simp [mapMessage, senderInfo, h]

/-- Claim C1: for every channel reference that resolves successfully and every
limit in [1,1000], both message endpoints return exactly the messages the
upstream iteration yields, mapped in place — hence in upstream order, with
none reordered, duplicated or dropped — and the result length is at most the
limit; in particular a limit of 2 against a stream of at least 5 messages
yields exactly 2 messages. -/
theorem C1_messages_capped_in_order (cid : Int) (uname : String)
    (resolveById : Int → Except PyExc Entity)
    (resolveByUsername : String → Except PyExc Entity)
    (stream : List TLMessage) (q : MessageQuery) (e1 e2 : Entity)
    (h1 : resolveById cid = .ok e1)
    (h2 : resolveByUsername uname = .ok e2)
    (hlim : 1 ≤ q.limit ∧ q.limit ≤ 1000) :
    (get_messages cid resolveById (upstreamIter stream) q).1 =
      .ok ((stream.take q.limit.toNat).map mapMessage) ∧
    (get_messages_by_username uname resolveByUsername (upstreamIter stream) q).1 =
      .ok ((stream.take q.limit.toNat).map mapMessage) ∧
    ((stream.take q.limit.toNat).map mapMessage).length ≤ q.limit.toNat ∧
    (q.limit = 2 → 5 ≤ stream.length →
      ((stream.take q.limit.toNat).map mapMessage).length = 2) := by
  refine ⟨?_, ?_, ?_, ?_⟩
  · rw [get_messages_ok_eval cid resolveById (upstreamIter stream) q e1 _ h1 hlim
      (upstreamIter_eval stream e1 q.limit q.offset_id q.min_id q.max_id)]
  · rw [get_messages_by_username_ok_eval uname resolveByUsername
      (upstreamIter stream) q e2 _ h2 hlim
      (upstreamIter_eval stream e2 q.limit q.offset_id q.min_id q.max_id)]
  · simp only [List.length_map, List.length_take]
    omega
  · intro hq hlen
    rw [hq]
    simp only [List.length_map, List.length_take]
    omega

theorem C1_messages_capped_in_order_witness :
    (get_messages 100 egResolveId (upstreamIter egStream) { limit := 2 }).1 =
      .ok [mapMessage (egMsg 5), mapMessage (egMsg 4)] ∧
    [mapMessage (egMsg 5), mapMessage (egMsg 4)].length ≤ 2 := by
  have h := C1_messages_capped_in_order 100 "newsch" egResolveId egResolveName
    egStream { limit := 2 } egChannelEntity egChannelEntity rfl rfl (by decide)
  exact ⟨h.1.trans rfl, by decide⟩

/-- Claim C2 (counterexample): a message with empty native text and no media
is returned by the message endpoint with an empty `text` field, so it is not
the case that every returned message has non-empty text. -/
theorem C2_counterexample :
    ¬ (∀ ms : List MessageModel,
        (get_messages 100 egResolveId (upstreamIter [egEmptyMsg]) {}).1 = .ok ms →
        ∀ mm ∈ ms, mm.text ≠ "") := by
  intro h
  exact h [mapMessage egEmptyMsg] rfl (mapMessage egEmptyMsg)
    (List.mem_singleton_self _) rfl

/-- Claim C2 (amended): for every message returned by either message-retrieval
endpoint, if the upstream message had non-empty native text or carried media,
the `text` field is non-empty — the original content or the media placeholder;
a message with empty native text and no media is returned with empty text. -/
theorem C2_text_nonempty_amended (cid : Int) (uname : String)
    (resolveById : Int → Except PyExc Entity)
    (resolveByUsername : String → Except PyExc Entity)
    (stream : List TLMessage) (q : MessageQuery) (e1 e2 : Entity)
    (h1 : resolveById cid = .ok e1)
    (h2 : resolveByUsername uname = .ok e2)
    (hlim : 1 ≤ q.limit ∧ q.limit ≤ 1000)
    (hgood : ∀ m ∈ stream, m.message.getD "" ≠ "" ∨ m.media.isSome = true) :
    (∀ ms, (get_messages cid resolveById (upstreamIter stream) q).1 = .ok ms →
      ∀ mm ∈ ms, mm.text ≠ "") ∧
    (∀ ms, (get_messages_by_username uname resolveByUsername
        (upstreamIter stream) q).1 = .ok ms →
      ∀ mm ∈ ms, mm.text ≠ "") := by
  have key : ∀ mm ∈ (stream.take q.limit.toNat).map mapMessage, mm.text ≠ "" := by
    intro mm hmm
    rcases List.mem_map.1 hmm with ⟨m, hm, rfl⟩
    exact mapMessage_text_ne_empty m (hgood m (List.take_subset _ _ hm))
  constructor
  · intro ms hms
    have he := get_messages_ok_eval cid resolveById (upstreamIter stream) q e1
      (stream.take q.limit.toNat) h1 hlim
      (upstreamIter_eval stream e1 q.limit q.offset_id q.min_id q.max_id)
    have hms' : HttpResult.ok ((stream.take q.limit.toNat).map mapMessage) =
        HttpResult.ok ms := by
      rw [he] at hms
      exact hms
    cases hms'
    exact key
  · intro ms hms
    have he := get_messages_by_username_ok_eval uname resolveByUsername
      (upstreamIter stream) q e2 (stream.take q.limit.toNat) h2 hlim
      (upstreamIter_eval stream e2 q.limit q.offset_id q.min_id q.max_id)
    have hms' : HttpResult.ok ((stream.take q.limit.toNat).map mapMessage) =
        HttpResult.ok ms := by
      rw [he] at hms
      exact hms
    cases hms'
    exact key

theorem C2_text_nonempty_amended_witness :
    (mapMessage (egMsg 5)).text ≠ "" :=
  (C2_text_nonempty_amended 100 "newsch" egResolveId egResolveName egStream {}
      egChannelEntity egChannelEntity rfl rfl (by decide) (by decide)).1
    (egStream.map mapMessage) rfl (mapMessage (egMsg 5)) (by decide)

/-- Numeric-id resolution that fails with the not-found signal. -/
def egResolveIdNF : Int → Except PyExc Entity :=
  fun _ => .error (.valueError "nope")

/-- Handle resolution that fails with the not-found signal. -/
def egResolveNameNF : String → Except PyExc Entity :=
  fun _ => .error (.valueError "nope")

/-- Claim C4: when entity resolution fails with the platform's does-not-exist
signal (a `ValueError`), both message endpoints answer exactly the not-found
class — 404 with a descriptive message — and never the generic 500 class. -/
theorem C4_not_found_is_404 (cid : Int) (uname : String)
    (resolveById : Int → Except PyExc Entity)
    (resolveByUsername : String → Except PyExc Entity)
    (iter : Entity → List (String × Int) → List TLMessage × Option PyExc)
    (q : MessageQuery) (msg : String)
    (h1 : resolveById cid = .error (.valueError msg))
    (h2 : resolveByUsername uname = .error (.valueError msg))
    (hlim : 1 ≤ q.limit ∧ q.limit ≤ 1000) :
    (get_messages cid resolveById iter q).1 =
      .error 404 ("Channel not found: " ++ msg) ∧
    (get_messages_by_username uname resolveByUsername iter q).1 =
      .error 404 ("Channel not found: " ++ msg) ∧
    (∀ d, (get_messages cid resolveById iter q).1 ≠ .error 500 d) ∧
    (∀ d, (get_messages_by_username uname resolveByUsername iter q).1 ≠
      .error 500 d) := by
  have ha := get_messages_resolve_err_eval cid resolveById iter q _ h1 hlim
  have hb := get_messages_by_username_resolve_err_eval uname resolveByUsername
    iter q _ h2 hlim
  refine ⟨by rw [ha]; rfl, by rw [hb]; rfl, ?_, ?_⟩
  · intro d hd
    rw [ha] at hd
    simp [handleMessagesError] at hd
  · intro d hd
    rw [hb] at hd
    simp [handleMessagesError] at hd

theorem C4_not_found_is_404_witness :
    (get_messages 100 egResolveIdNF (upstreamIter egStream) {}).1 =
      .error 404 ("Channel not found: " ++ "nope") :=
  (C4_not_found_is_404 100 "ghost" egResolveIdNF egResolveNameNF
    (upstreamIter egStream) {} "nope" rfl rfl (by decide)).1

/-- Claim C5: when the upstream raises a flood/rate-limit signal carrying a
wait of `n` seconds — during message iteration on either endpoint, or already
during entity resolution — the endpoint answers exactly the rate-limited
class, 429 with the wait value surfaced in the detail, and never the 404 or
500 classes. -/
theorem C5_flood_is_429 (cid : Int) (uname : String)
    (resolveById : Int → Except PyExc Entity)
    (resolveByUsername : String → Except PyExc Entity)
    (iter : Entity → List (String × Int) → List TLMessage × Option PyExc)
    (q : MessageQuery) (e1 e2 : Entity) (n : Nat) (fmsg : String)
    (ys1 ys2 : List TLMessage)
    (h1 : resolveById cid = .ok e1)
    (h2 : resolveByUsername uname = .ok e2)
    (hlim : 1 ≤ q.limit ∧ q.limit ≤ 1000)
    (hi1 : iter e1 (buildIterKwargs q.limit q.offset_id q.min_id q.max_id) =
      (ys1, some (.floodWait n fmsg)))
    (hi2 : iter e2 (buildIterKwargs q.limit q.offset_id q.min_id q.max_id) =
      (ys2, some (.floodWait n fmsg))) :
    (get_messages cid resolveById iter q).1 =
      .error 429 ("Rate limited. Wait " ++ toString n ++ " seconds") ∧
    (get_messages_by_username uname resolveByUsername iter q).1 =
      .error 429 ("Rate limited. Wait " ++ toString n ++ " seconds") ∧
    (∀ d, (get_messages cid resolveById iter q).1 ≠ .error 404 d) ∧
    (∀ d, (get_messages cid resolveById iter q).1 ≠ .error 500 d) ∧
    (∀ r : Int → Except PyExc Entity, r cid = .error (.floodWait n fmsg) →
      (get_messages cid r iter q).1 =
        .error 429 ("Rate limited. Wait " ++ toString n ++ " seconds")) := by
  have ha := get_messages_iter_err_eval cid resolveById iter q e1 ys1 _ h1 hlim hi1
  have hb := get_messages_by_username_iter_err_eval uname resolveByUsername
    iter q e2 ys2 _ h2 hlim hi2
  refine ⟨by rw [ha]; rfl, by rw [hb]; rfl, ?_, ?_, ?_⟩
  · intro d hd
    rw [ha] at hd
    simp [handleMessagesError] at hd
  · intro d hd
    rw [ha] at hd
    simp [handleMessagesError] at hd
  · intro r hr
    rw [get_messages_resolve_err_eval cid r iter q _ hr hlim]
    rfl

theorem C5_flood_is_429_witness :
    (get_messages 100 egResolveId (fun _ _ => ([], some (.floodWait 30 "flood"))) {}).1 =
      .error 429 ("Rate limited. Wait " ++ toString 30 ++ " seconds") :=
  (C5_flood_is_429 100 "newsch" egResolveId egResolveName
    (fun _ _ => ([], some (.floodWait 30 "flood"))) {} egChannelEntity
    egChannelEntity 30 "flood" [] [] rfl rfl (by decide) rfl rfl).1

/-- Claim C6: a limit outside [1,1000] is rejected before any upstream call —
the upstream-call trace is empty and the response is the validation error; an
absent limit defaults to 50; and each pagination parameter appears in the
upstream keyword arguments verbatim exactly when present and is omitted
entirely (no key at all, not a null value) when absent. -/
theorem C6_validation_and_kwargs (cid : Int) (uname : String)
    (resolveById : Int → Except PyExc Entity)
    (resolveByUsername : String → Except PyExc Entity)
    (iter : Entity → List (String × Int) → List TLMessage × Option PyExc)
    (q : MessageQuery)
    (hbad : ¬ (1 ≤ q.limit ∧ q.limit ≤ 1000)) :
    (get_messages cid resolveById iter q).2 = [] ∧
    (get_messages cid resolveById iter q).1 =
      .error 422 "Input should be within the range 1..1000" ∧
    (get_messages_by_username uname resolveByUsername iter q).2 = [] ∧
    ({} : MessageQuery).limit = 50 ∧
    (∀ (l : Int) (o mi ma : Option Int),
      (buildIterKwargs l o mi ma).lookup "limit" = some l ∧
      (buildIterKwargs l o mi ma).lookup "offset_id" = o ∧
      (buildIterKwargs l o mi ma).lookup "min_id" = mi ∧
      (buildIterKwargs l o mi ma).lookup "max_id" = ma) := by
  have ha : get_messages cid resolveById iter q =
      (.error 422 "Input should be within the range 1..1000", []) := by
    unfold get_messages
    rw [if_pos hbad]
  have hb : get_messages_by_username uname resolveByUsername iter q =
      (.error 422 "Input should be within the range 1..1000", []) := by
    unfold get_messages_by_username
    rw [if_pos hbad]
  refine ⟨by rw [ha], by rw [ha], by rw [hb], rfl, ?_⟩
  intro l o mi ma
  cases o <;> cases mi <;> cases ma <;> exact ⟨rfl, rfl, rfl, rfl⟩

theorem C6_validation_and_kwargs_witness :
    (get_messages 100 egResolveId (upstreamIter egStream) { limit := 0 }).2 = [] ∧
    (get_messages 100 egResolveId (upstreamIter egStream) { limit := 0 }).1 =
      .error 422 "Input should be within the range 1..1000" :=
  ⟨(C6_validation_and_kwargs 100 "newsch" egResolveId egResolveName
      (upstreamIter egStream) { limit := 0 } (by decide)).1,
    (C6_validation_and_kwargs 100 "newsch" egResolveId egResolveName
      (upstreamIter egStream) { limit := 0 } (by decide)).2.1⟩

/-- Claim C10: when the upstream iteration fails partway, each endpoint
discards the prefix mapped before the failure and returns only the translated
error — the response is identical for every yielded prefix and is never a
success carrying a partial list — and the listing endpoint likewise answers
only the 500 error regardless of the dialogs already yielded; the embedding is
a pure function of the request and the upstream behaviour, so no service state
changes. -/
theorem C10_no_partial_results (dialogs : List Dialog) (e : PyExc)
    (cid : Int) (uname : String)
    (resolveById : Int → Except PyExc Entity)
    (resolveByUsername : String → Except PyExc Entity)
    (q : MessageQuery) (e1 e2 : Entity)
    (h1 : resolveById cid = .ok e1)
    (h2 : resolveByUsername uname = .ok e2)
    (hlim : 1 ≤ q.limit ∧ q.limit ≤ 1000) :
    list_channels dialogs (some e) =
      .error 500 ("Error listing channels: " ++ e.str) ∧
    (∀ yielded : List TLMessage,
      (get_messages cid resolveById (fun _ _ => (yielded, some e)) q).1 =
        handleMessagesError e) ∧
    (∀ yielded : List TLMessage,
      (get_messages_by_username uname resolveByUsername
        (fun _ _ => (yielded, some e)) q).1 = handleMessagesError e) ∧
    (∀ (yielded : List TLMessage) (ms : List MessageModel),
      (get_messages cid resolveById (fun _ _ => (yielded, some e)) q).1 ≠
        .ok ms) := by
  refine ⟨rfl, ?_, ?_, ?_⟩
  · intro yielded
    rw [get_messages_iter_err_eval cid resolveById _ q e1 yielded e h1 hlim rfl]
  · intro yielded
    rw [get_messages_by_username_iter_err_eval uname resolveByUsername _ q e2
      yielded e h2 hlim rfl]
  · intro yielded ms hms
    rw [get_messages_iter_err_eval cid resolveById _ q e1 yielded e h1 hlim rfl]
      at hms
    cases e <;> simp [handleMessagesError] at hms

theorem C10_no_partial_results_witness :
    list_channels [⟨egChannelEntity⟩] (some (.other "boom")) =
      .error 500 ("Error listing channels: " ++ "boom") ∧
    (get_messages 100 egResolveId
      (fun _ _ => (egStream, some (.other "boom"))) {}).1 =
      handleMessagesError (.other "boom") := by
  have h := C10_no_partial_results [⟨egChannelEntity⟩] (.other "boom") 100
    "newsch" egResolveId egResolveName {} egChannelEntity egChannelEntity
    rfl rfl (by decide)
  exact ⟨h.1, h.2.1 egStream⟩

end Telegrampa
